import Mathlib

/-!
Verification of the ChatGPT-Chrome-Extension-Automator core against its
natural-language specification.

The development shallowly embeds the four source files:

* `src/background.js` — the privileged broker (`INJECT_PROSEMIRROR_SCRIPT`
  message handler) together with the content-script orchestrator
  (`handlePrompt`, `setProseMirrorContent`) and the completion detector
  (`waitForResponse` / `checkCompletion`);
* `src/chatgpt-api.js` — the caller-facing facade (`ChatGPTAPI`).

DOM reads performed by the code on each detector tick are captured in an
observation record `Obs`; the detector's closure variables become the record
`DetectorState`, and one invocation of `checkCompletion` becomes a pure step
function `DetectorState → Obs → DetectorState × Option String`, the `Option
String` being the text of the `CAPTURED_RESPONSE` message the tick sends (if
any).  The facade's per-request promise machinery (the `resolved` flag, the
timeout timer, the response handler registered in `responseListeners`) becomes
the record `RequestState` acted on by events `Ev`.
-/

namespace ChatGPTAutomator

/-! ## Completion Detector (`waitForResponse` in the content script) -/

/-- One tick's worth of DOM observations, as read by `checkCompletion`:
presence of a stop button, presence of a streaming-indicator element,
presence/disabled state of a send button, and the latest response block
(whether one exists and its `innerText`). -/
structure Obs where
  stopButton : Bool
  isStreaming : Bool
  sendButtonPresent : Bool
  sendButtonDisabled : Bool
  responseExists : Bool
  responseText : String
deriving DecidableEq

/-- The closure variables of `waitForResponse`: `checkCount`,
`streamingDetected`, `lastResponseLength`, `stableCount`, `isComplete`, and
whether the mutation observer and the polling interval are still attached. -/
structure DetectorState where
  checkCount : Nat
  streamingDetected : Bool
  lastResponseLength : Nat
  stableCount : Nat
  isComplete : Bool
  observerActive : Bool
  intervalActive : Bool
deriving DecidableEq

/-- `const maxChecks = 300` — 5 minutes at 1-second intervals. -/
def maxChecks : Nat := 300

/-- `const requiredStableChecks = 3`. -/
def requiredStableChecks : Nat := 3

/-- The sentinel failure text sent on timeout. -/
def timeoutText : String := "Response timeout - please check manually"

/-- `currentResponseLength`: the `innerText` length of the latest response
block, or `0` when no response block exists (an empty `innerText` also
yields 0, exactly as the falsy check in the source does). -/
def currentLength (o : Obs) : Nat :=
  if o.responseExists then o.responseText.length else 0

/-- `completionConditionsMet`: streaming was detected, no stop button, no
streaming indicator, a response block exists with non-zero length, and any
located send button is enabled.  `sd` is the (already updated) value of
`streamingDetected` for this tick. -/
def conditionsMet (sd : Bool) (o : Obs) : Bool :=
  sd && !o.stopButton && !o.isStreaming && o.responseExists &&
    decide (0 < currentLength o) && (!o.sendButtonPresent || !o.sendButtonDisabled)

/-- One invocation of `checkCompletion`.  Returns the updated closure state
and the text of the `CAPTURED_RESPONSE` message sent during the tick, if any
(the timeout sentinel or the captured response text). -/
def checkCompletion (st : DetectorState) (o : Obs) : DetectorState × Option String :=
  if st.isComplete then (st, none)
  else
    let checkCount := st.checkCount + 1
    if maxChecks < checkCount then
      ({ st with checkCount := checkCount, observerActive := false, intervalActive := false },
        some timeoutText)
    else
      let streamingDetected := st.streamingDetected || o.stopButton
      if conditionsMet streamingDetected o then
        if currentLength o = st.lastResponseLength then
          let stableCount := st.stableCount + 1
          if requiredStableChecks ≤ stableCount then
            ({ st with
                checkCount := checkCount, streamingDetected := streamingDetected,
                stableCount := stableCount, isComplete := true,
                observerActive := false, intervalActive := false },
              some o.responseText)
          else
            ({ st with
                checkCount := checkCount, streamingDetected := streamingDetected,
                stableCount := stableCount }, none)
        else
          ({ st with
              checkCount := checkCount, streamingDetected := streamingDetected,
              stableCount := 0, lastResponseLength := currentLength o }, none)
      else
        ({ st with
            checkCount := checkCount, streamingDetected := streamingDetected,
            stableCount := 0,
            lastResponseLength :=
              if 0 < currentLength o then currentLength o else st.lastResponseLength },
          none)

/-- The initial closure state set up by `waitForResponse` (observer and
interval both attached). -/
def waitForResponseInit : DetectorState :=
  { checkCount := 0, streamingDetected := false, lastResponseLength := 0,
    stableCount := 0, isComplete := false, observerActive := true, intervalActive := true }

/-- Run the detector over a sequence of ticks.  A tick only occurs while at
least one observation handle (mutation observer or interval) is still
attached: `cleanup()` detaches both, after which no further ticks fire.
Returns the final state and the list of emitted message texts in order. -/
def runDetector : DetectorState → List Obs → DetectorState × List String
  | st, [] => (st, [])
  | st, o :: rest =>
    if st.observerActive || st.intervalActive then
      let p := checkCompletion st o
      let q := runDetector p.1 rest
      (q.1, p.2.toList ++ q.2)
    else (st, [])

/-! ### The C1 scenario: lengths `[0,0,12,12,12]`, stop control on the first
two ticks only. -/

/-- Ticks 1–2 of the C1 scenario: stop control present, response block present
but still empty (length 0). -/
def obsStreamingEmpty : Obs :=
  { stopButton := true, isStreaming := false, sendButtonPresent := false,
    sendButtonDisabled := false, responseExists := true, responseText := "" }

/-- Ticks 3–5 of the C1 scenario: stop control gone, response block of
length 12. -/
def obsSettled12 : Obs :=
  { stopButton := false, isStreaming := false, sendButtonPresent := false,
    sendButtonDisabled := false, responseExists := true, responseText := "abcdefghijkl" }

/-- The five-tick sequence of the claimed stability law. -/
def c1Seq : List Obs :=
  [obsStreamingEmpty, obsStreamingEmpty, obsSettled12, obsSettled12, obsSettled12]

/-- The same scenario with one further stable tick appended. -/
def c1SeqExtended : List Obs := c1Seq ++ [obsSettled12]

/-- An observation under which the candidate-recognition condition is false
regardless of the current `streamingDetected` value: a stop control or a
streaming indicator is present, or no response block with non-zero length
exists, or a send button is present but disabled. -/
def blocked (o : Obs) : Bool :=
  o.stopButton || o.isStreaming || !o.responseExists || decide (currentLength o = 0) ||
    (o.sendButtonPresent && o.sendButtonDisabled)

/-- A tick on which no response block exists at all (used for the timeout
scenarios of C2). -/
def obsNoResponse : Obs :=
  { stopButton := false, isStreaming := false, sendButtonPresent := false,
    sendButtonDisabled := false, responseExists := false, responseText := "" }

/-- JavaScript's `String.prototype.trim()`: strip leading and trailing
whitespace. -/
def jsTrim (s : String) : String :=
  ⟨((s.data.dropWhile Char.isWhitespace).reverse.dropWhile Char.isWhitespace).reverse⟩

/-! ## Privileged Broker (`INJECT_PROSEMIRROR_SCRIPT` handler in
`background.js`) -/

/-- The result record the injection routine writes to the
`window.__prosemirrorResult` marker (and the broker's response shape):
`success` reflects the truthiness of the `success` field, `method` and
`error` the corresponding optional string fields. -/
structure InjResult where
  success : Bool
  method : Option String
  error : Option String
deriving DecidableEq

/-- The generic failure the broker responds with when the marker was absent
and the secondary probe found no content. -/
def noResultFailure : InjResult :=
  { success := false, method := none, error := some "No result found" }

/-- The synthesized success the broker (or Tier 2) reports after a positive
content probe. -/
def domManipSuccess : InjResult :=
  { success := true, method := some "dom_manipulation", error := none }

/-- JavaScript truthiness of a property read that may yield `undefined`. -/
def jsTruthy : Option Bool → Bool
  | none => false
  | some b => b

/-- What the marker-reading `chrome.scripting.executeScript` call resolves
with: an array of `InjectionResult` wrapper objects, each with fields
`documentId`/`frameId` and `result` — the injected function's return value,
here `window.__prosemirrorResult || null`. -/
structure MarkerWrapper where
  frameId : Nat
  result : Option InjResult
deriving DecidableEq

/-- The JS property read `result.success` performed at `background.js`
line 22.  Its operand is the `InjectionResult` wrapper object, whose own
fields are `documentId`, `frameId` and `result` — `success` is not among
them (the marker value sits unread inside `.result`), so the read yields
`undefined`. -/
def MarkerWrapper.success (_w : MarkerWrapper) : Option Bool := none

/-- The object `{hasContent: bool}` the secondary probe function returns. -/
structure ProbeResult where
  hasContent : Bool
deriving DecidableEq

/-- The wrapper the probe's `executeScript` call resolves with: the probe's
`{hasContent}` object sits inside its `result` field. -/
structure ProbeWrapper where
  frameId : Nat
  result : Option ProbeResult
deriving DecidableEq

/-- The JS property read `check.hasContent` performed at `background.js`
lines 35–36: again a read on the `InjectionResult` wrapper, which has no
`hasContent` field, so it yields `undefined`. -/
def ProbeWrapper.hasContent (_w : ProbeWrapper) : Option Bool := none

/-- The value the broker passes to `sendResponse`: either the raw
`InjectionResult` wrapper object (`sendResponse(result)` with `result` a
wrapper), or an object literal built by the handler itself. -/
inductive BrokerResponse where
  | wrapper (w : MarkerWrapper)
  | plain (r : InjResult)
deriving DecidableEq

/-- The broker's handling of the marker read after the 500 ms settle delay
(`background.js` lines 19–55), as actually executed.  Inputs: the wrapper
arrays the two `executeScript` calls resolve with (the marker read, then the
secondary probe).  Output: the value passed to `sendResponse`, paired with
whether the marker-cleanup script was run.  The code takes
`const result = results && results[0] ? results[0] : null` — the wrapper,
without `.result` — so `result.success` and `check.hasContent` are reads of
properties the wrappers do not have. -/
def brokerHandle (results : List MarkerWrapper) (checkResults : List ProbeWrapper) :
    BrokerResponse × Bool :=
  match results.head? with
  | some result =>
    if jsTruthy result.success then
      (.wrapper result, true)
    else
      match checkResults.head? with
      | some check =>
        if jsTruthy check.hasContent then (.plain domManipSuccess, false)
        else (.wrapper result, false)
      | none => (.wrapper result, false)
  | none =>
    match checkResults.head? with
    | some check =>
      if jsTruthy check.hasContent then (.plain domManipSuccess, false)
      else (.plain noResultFailure, false)
    | none => (.plain noResultFailure, false)

/-- A marker read resolving with one wrapper whose `result` holds the
Tier 1 success marker. -/
def successMarkerWrapper : MarkerWrapper :=
  { frameId := 0,
    result := some { success := true, method := some "direct_api", error := none } }

/-- A probe resolving with one wrapper whose `result` reports content
present. -/
def contentProbeWrapper : ProbeWrapper :=
  { frameId := 0, result := some { hasContent := true } }

/-! ## Content Orchestrator (`handlePrompt` / `setProseMirrorContent` in the
content script) -/

set_option linter.unusedVariables false in
/-- `setProseMirrorContent`: sends the injection request to the broker and
receives `resp` (`none` when the message round-trip produced no response),
then — ignoring `resp` entirely — re-reads the textarea's visible text after
a 300 ms delay (`contentCheck`) and succeeds iff it is non-empty. -/
def setProseMirrorContent (resp : Option InjResult) (contentCheck : String) : Bool :=
  decide (0 < (jsTrim contentCheck).length)

/-- The externally visible actions `handlePrompt` can take, in order:
logging an error to the console, clicking the send button, dispatching a
synthetic Enter key event, starting the completion detector, and sending a
`chrome.runtime` message (the content script only ever sends
`INJECT_PROSEMIRROR_SCRIPT` — from inside `setProseMirrorContent` — and
`CAPTURED_RESPONSE` — from the detector; `handlePrompt` itself sends none). -/
inductive OrchAction where
  | consoleError (msg : String)
  | clickSend
  | dispatchEnter
  | startDetector
  | runtimeSendMessage (action : String) (text : String)
deriving DecidableEq

/-- The environment one `handlePrompt` call observes: textarea presence, the
broker's response to the injection request, the textarea text re-read by
`setProseMirrorContent` after its 300 ms delay, and whether the send button
is present at submit time. -/
structure PromptEnv where
  textareaPresent : Bool
  brokerResp : Option InjResult
  contentCheck : String
  sendButtonPresent : Bool
deriving DecidableEq

/-- `handlePrompt` (content script lines 226–259) as the list of actions it
performs: abort with a logged error when the textarea is missing or the
content re-verification fails; otherwise click the send button (or dispatch
Enter when none is found) and start the completion detector. -/
def handlePrompt (env : PromptEnv) : List OrchAction :=
  if !env.textareaPresent then
    [.consoleError "ChatGPT Automator: Could not find textarea."]
  else if !(setProseMirrorContent env.brokerResp env.contentCheck) then
    [.consoleError "ChatGPT Automator: Failed to set prompt text."]
  else if env.sendButtonPresent then [.clickSend, .startDetector]
  else [.dispatchEnter, .startDetector]

/-- A prompt-handling environment in which the broker reported success but
the re-read textarea text is empty. -/
def c3Env : PromptEnv :=
  { textareaPresent := true,
    brokerResp := some { success := true, method := some "direct_api", error := none },
    contentCheck := "", sendButtonPresent := true }

/-! ## API Facade (`ChatGPTAPI` in `chatgpt-api.js`) -/

/-- The error kinds `sendPrompt` can reject with.  `targetNotFound` is the
"ChatGPT tab not found" error constructed (but, as proved below, never
delivered) on the tab-lookup-failure path. -/
inductive ErrorKind where
  | notInitialized
  | invalidInput
  | timeout
  | sendFailed
  | targetNotFound
deriving DecidableEq

/-- How a `sendPrompt` promise is settled. -/
inductive Settled where
  | resolvedWith (text : String)
  | rejectedWith (e : ErrorKind)
deriving DecidableEq

/-- The per-request machinery inside one `sendPrompt` promise body: the
`resolved` flag, whether the `responseHandler` is still in
`responseListeners`, whether the timeout timer is still pending, and how (if
at all) the promise has been settled. -/
structure RequestState where
  resolved : Bool
  handlerRegistered : Bool
  timerActive : Bool
  settled : Option Settled
deriving DecidableEq

/-- The request state right after the promise body registers the response
handler and arms the timeout timer. -/
def initRequest : RequestState :=
  { resolved := false, handlerRegistered := true, timerActive := true, settled := none }

/-- The request state the tab-lookup-failure path leaves behind: resolved,
cleaned up, and yet never settled — the promise is pending forever. -/
def hungRequest : RequestState :=
  { resolved := true, handlerRegistered := false, timerActive := false, settled := none }

/-- Events that can hit one pending request: its timeout timer firing, a
captured response delivered to its handler, the send callback reporting
`chrome.runtime.lastError`, and `_getChatGPTTab` resolving to no tab. -/
inductive Ev where
  | timeoutFire
  | response (text : String)
  | sendFail
  | tabLookupFail
deriving DecidableEq

/-- One event against one request, exactly as the corresponding code path
executes.  Every path first checks the `resolved` flag; the
tab-lookup-failure path (lines 124–129) sets `resolved`, clears the timer,
removes the handler and then throws — and the surrounding catch block
(lines 151–157) sees `resolved === true` and returns without rejecting, so
that path settles nothing. -/
def stepEv (r : RequestState) : Ev → RequestState
  | .response text =>
    if r.handlerRegistered then
      if r.resolved then r
      else
        { resolved := true, handlerRegistered := false, timerActive := false,
          settled := some (.resolvedWith text) }
    else r
  | .timeoutFire =>
    if r.timerActive then
      if r.resolved then r
      else
        { resolved := true, handlerRegistered := false, timerActive := false,
          settled := some (.rejectedWith .timeout) }
    else r
  | .sendFail =>
    if r.resolved then r
    else
      { resolved := true, handlerRegistered := false, timerActive := false,
        settled := some (.rejectedWith .sendFailed) }
  | .tabLookupFail =>
    if r.resolved then r
    else
      { resolved := true, handlerRegistered := false, timerActive := false,
        settled := r.settled }

/-- A sequence of events against one request. -/
def runEvents (r : RequestState) : List Ev → RequestState
  | [] => r
  | e :: es => runEvents (stepEv r e) es

/-- `_handleResponse`: every handler currently in `responseListeners` is
invoked with the same text (a handler no longer registered is not in the
set and is not invoked). -/
def handleResponse (reqs : List RequestState) (text : String) : List RequestState :=
  reqs.map (fun r => stepEv r (Ev.response text))

/-- The state of a request that has been resolved by a captured response. -/
def resolvedRequest (text : String) : RequestState :=
  { resolved := true, handlerRegistered := false, timerActive := false,
    settled := some (.resolvedWith text) }

/-- The invariant every reachable request state satisfies: an unresolved
request is unsettled, and a resolved one has its handler removed and its
timer cleared. -/
def ReqInv (r : RequestState) : Prop :=
  (r.resolved = false → r.settled = none) ∧
  (r.resolved = true → r.handlerRegistered = false ∧ r.timerActive = false)

/-- The facade instance state touched by `initialize`: the `isInitialized`
flag, whether `this.messageListener` has been created, and how many bus
listeners `chrome.runtime.onMessage.addListener` has registered for it. -/
structure APIState where
  isInitialized : Bool
  hasMessageListener : Bool
  busListenerCount : Nat
deriving DecidableEq

/-- A freshly constructed `ChatGPTAPI`. -/
def freshAPI : APIState :=
  { isInitialized := false, hasMessageListener := false, busListenerCount := 0 }

/-- `initialize()`: returns immediately when already initialized; otherwise
creates and registers the message listener (only when not already created)
and sets the flag. -/
def initializeAPI (s : APIState) : APIState :=
  if s.isInitialized then s
  else
    let s1 :=
      if s.hasMessageListener then s
      else
        { s with hasMessageListener := true, busListenerCount := s.busListenerCount + 1 }
    { s1 with isInitialized := true }

/-- `initialize()` called `n` times in sequence. -/
def initializeN : Nat → APIState → APIState
  | 0, s => s
  | n + 1, s => initializeN n (initializeAPI s)

/-- A browser tab as seen by `_getChatGPTTab`: an id and an optional URL. -/
structure Tab where
  id : Nat
  url : Option String
deriving DecidableEq

/-- `tab.url.includes(needle)` — substring test. -/
def urlContains (u needle : String) : Bool :=
  decide (1 < (u.splitOn needle).length)

/-- The predicate `_getChatGPTTab` filters with: the tab has a URL
containing `chatgpt.com` or `chat.openai.com`. -/
def isChatGPTTab (t : Tab) : Bool :=
  match t.url with
  | some u => urlContains u "chatgpt.com" || urlContains u "chat.openai.com"
  | none => false

/-- `_getChatGPTTab`: the first matching tab, or none. -/
def getChatGPTTab (tabs : List Tab) : Option Tab :=
  tabs.find? isChatGPTTab

/-- The prompt argument as `sendPrompt` sees it: either not a string at all,
or a string value. -/
inductive PromptValue where
  | nonString
  | str (s : String)
deriving DecidableEq

/-- The two guard checks at the top of `sendPrompt`: not initialized, then
empty/non-string prompt. -/
def sendPromptGuards (isInit : Bool) (p : PromptValue) : Option ErrorKind :=
  if !isInit then some .notInitialized
  else
    match p with
    | .nonString => some .invalidInput
    | .str s => if (jsTrim s).length = 0 then some .invalidInput else none

/-- What a `sendPrompt` call produces: an immediate rejection from a guard,
or a started request in the state its machinery is left in once the tab
lookup has completed (on lookup failure, the `tabLookupFail` path has run). -/
inductive SendStart where
  | immediateError (e : ErrorKind)
  | started (r : RequestState)
deriving DecidableEq

/-- `sendPrompt` up to the point where the request is in flight: guards
first, then the tab lookup; a failed lookup leaves the request in the state
produced by the (never-settling) tab-lookup-failure path. -/
def sendPrompt (isInit : Bool) (p : PromptValue) (tabs : List Tab) : SendStart :=
  match sendPromptGuards isInit p with
  | some e => .immediateError e
  | none =>
    match getChatGPTTab tabs with
    | none => .started (stepEv initRequest .tabLookupFail)
    | some _ => .started initRequest

/-- A blocked observation never satisfies `completionConditionsMet`. -/
lemma conditionsMet_of_blocked (sd : Bool) (o : Obs) (h : blocked o = true) :
    conditionsMet sd o = false := by
  obtain ⟨sb, str, sbp, sbd, re, rt⟩ := o
  simp only [blocked] at h
  simp only [conditionsMet]
  cases sb <;> cases str <;> cases sbp <;> cases sbd <;> cases re <;>
    simp_all [currentLength]

/-- A tick on a blocked observation before the timeout boundary advances the
tick counter, resets the stability counter, emits nothing, and leaves the
terminal flag and both observation handles unchanged. -/
lemma checkCompletion_blocked (st : DetectorState) (o : Obs) (hb : blocked o = true)
    (hic : st.isComplete = false) (hcc : st.checkCount < maxChecks) :
    (checkCompletion st o).2 = none ∧
    (checkCompletion st o).1.checkCount = st.checkCount + 1 ∧
    (checkCompletion st o).1.stableCount = 0 ∧
    (checkCompletion st o).1.isComplete = false ∧
    (checkCompletion st o).1.observerActive = st.observerActive ∧
    (checkCompletion st o).1.intervalActive = st.intervalActive := by
  have hcond := conditionsMet_of_blocked (st.streamingDetected || o.stopButton) o hb
  have hnot : ¬ maxChecks < st.checkCount + 1 := by omega
  simp [checkCompletion, hic, hnot, hcond]

/-- A tick taken once the counter has already reached the ceiling (and the
detector is not complete) fires the timeout branch: both handles are
released and the sentinel text is emitted. -/
lemma checkCompletion_timeout (st : DetectorState) (o : Obs)
    (hic : st.isComplete = false) (hcc : maxChecks ≤ st.checkCount) :
    checkCompletion st o =
      ({ st with
          checkCount := st.checkCount + 1, observerActive := false, intervalActive := false },
        some timeoutText) := by
  have hgt : maxChecks < st.checkCount + 1 := by omega
  simp [checkCompletion, hic, hgt]

/-- Once both observation handles are released, no further tick fires. -/
lemma runDetector_stopped (st : DetectorState) (obss : List Obs)
    (ho : st.observerActive = false) (hi : st.intervalActive = false) :
    runDetector st obss = (st, []) := by
  cases obss with
  | nil => rfl
  | cons o rest => simp [runDetector, ho, hi]

/-- Running the detector over an appended tick sequence composes. -/
lemma runDetector_append (xs ys : List Obs) (st : DetectorState) :
    runDetector st (xs ++ ys) =
      ((runDetector (runDetector st xs).1 ys).1,
        (runDetector st xs).2 ++ (runDetector (runDetector st xs).1 ys).2) := by
  induction xs generalizing st with
  | nil => simp [runDetector]
  | cons x xs ih =>
    by_cases hg : st.observerActive = true ∨ st.intervalActive = true
    · have hg' : (st.observerActive || st.intervalActive) = true := by
        rcases hg with h | h <;> simp [h]
      simp only [List.cons_append, runDetector, hg', if_true]
      simp only [List.append_eq]
      rw [ih]
      simp [List.append_assoc]
    · push_neg at hg
      obtain ⟨ho, hi⟩ := hg
      rw [runDetector_stopped st (x :: xs ++ ys) (by simpa using ho) (by simpa using hi),
        runDetector_stopped st (x :: xs) (by simpa using ho) (by simpa using hi)]
      simp [runDetector_stopped st ys (by simpa using ho) (by simpa using hi)]

/-- Over any sequence of blocked observations that stays within the tick
ceiling, the detector merely counts ticks: nothing is emitted, it never
becomes complete, and both handles stay attached. -/
lemma runDetector_blocked_progress :
    ∀ (obss : List Obs) (st : DetectorState),
      (∀ o ∈ obss, blocked o = true) →
      st.isComplete = false → st.observerActive = true → st.intervalActive = true →
      st.checkCount + obss.length ≤ maxChecks →
      (runDetector st obss).1.checkCount = st.checkCount + obss.length ∧
      (runDetector st obss).1.isComplete = false ∧
      (runDetector st obss).1.observerActive = true ∧
      (runDetector st obss).1.intervalActive = true ∧
      (runDetector st obss).2 = [] := by
  intro obss
  induction obss with
  | nil => intro st _ hic ho hi _; simpa [runDetector] using ⟨hic, ho, hi⟩
  | cons o rest ih =>
    intro st hall hic ho hi hbound
    have hb : blocked o = true := hall o (List.mem_cons_self o rest)
    have hcc : st.checkCount < maxChecks := by
      simp only [List.length_cons] at hbound; omega
    obtain ⟨he, hc, _, hic', ho', hi'⟩ := checkCompletion_blocked st o hb hic hcc
    have hg : (st.observerActive || st.intervalActive) = true := by simp [ho]
    have hrest := ih (checkCompletion st o).1
      (fun x hx => hall x (List.mem_cons_of_mem o hx))
      hic' (by rw [ho']; exact ho) (by rw [hi']; exact hi)
      (by simp only [List.length_cons] at hbound; omega)
    simp only [runDetector, hg, if_true, he]
    refine ⟨?_, hrest.2.1, hrest.2.2.1, hrest.2.2.2.1, by simp [hrest.2.2.2.2]⟩
    rw [hrest.1, hc]
    simp [List.length_cons]; omega

/-- Over any sequence of blocked observations (of any length), the detector
never becomes complete and the only text it can ever emit is the timeout
sentinel. -/
lemma runDetector_blocked_safe :
    ∀ (obss : List Obs) (st : DetectorState),
      (∀ o ∈ obss, blocked o = true) →
      st.isComplete = false →
      (runDetector st obss).1.isComplete = false ∧
      ∀ t ∈ (runDetector st obss).2, t = timeoutText := by
  intro obss
  induction obss with
  | nil => intro st _ hic; simpa [runDetector] using hic
  | cons o rest ih =>
    intro st hall hic
    have hb : blocked o = true := hall o (List.mem_cons_self o rest)
    by_cases hg : (st.observerActive || st.intervalActive) = true
    · by_cases hcc : st.checkCount < maxChecks
      · obtain ⟨he, _, _, hic', _, _⟩ := checkCompletion_blocked st o hb hic hcc
        have hrest := ih (checkCompletion st o).1
          (fun x hx => hall x (List.mem_cons_of_mem o hx)) hic'
        simp only [runDetector, hg, if_true, he]
        exact ⟨hrest.1, by simpa using hrest.2⟩
      · have heq := checkCompletion_timeout st o hic (by omega)
        have hic' : (checkCompletion st o).1.isComplete = false := by rw [heq]; exact hic
        have hrest := ih (checkCompletion st o).1
          (fun x hx => hall x (List.mem_cons_of_mem o hx)) hic'
        simp only [runDetector, hg, if_true]
        refine ⟨hrest.1, ?_⟩
        intro t ht
        rw [heq] at ht
        simp only [Option.toList_some, List.mem_append, List.mem_singleton] at ht
        rcases ht with ht | ht
        · exact ht
        · exact hrest.2 t (by rw [heq]; exact ht)
    · rw [runDetector_stopped st (o :: rest)
        (by revert hg; cases st.observerActive <;> cases st.intervalActive <;> simp)
        (by revert hg; cases st.observerActive <;> cases st.intervalActive <;> simp)]
      exact ⟨hic, by simp⟩

/-! ### Facade request-machinery lemmas -/

/-- Once the `resolved` flag is set, every further event is a no-op. -/
lemma stepEv_resolved (r : RequestState) (e : Ev) (h : r.resolved = true) :
    stepEv r e = r := by
  cases e <;> simp [stepEv, h]

/-- Once the `resolved` flag is set, an entire event sequence is a no-op. -/
lemma runEvents_resolved (r : RequestState) (evs : List Ev) (h : r.resolved = true) :
    runEvents r evs = r := by
  induction evs with
  | nil => rfl
  | cons e es ih => simp [runEvents, stepEv_resolved r e h, ih]

/-- `ReqInv` is preserved by every event. -/
lemma ReqInv_step (r : RequestState) (e : Ev) (h : ReqInv r) : ReqInv (stepEv r e) := by
  obtain ⟨res, hreg, ta, set⟩ := r
  cases e <;> cases res <;> cases hreg <;> cases ta <;> cases set <;>
    simp_all [stepEv, ReqInv]

/-- `ReqInv` is preserved by event sequences. -/
lemma ReqInv_run (r : RequestState) (evs : List Ev) (h : ReqInv r) :
    ReqInv (runEvents r evs) := by
  induction evs generalizing r with
  | nil => exact h
  | cons e es ih => exact ih (stepEv r e) (ReqInv_step r e h)

/-- The initial request state satisfies the invariant. -/
lemma ReqInv_init : ReqInv initRequest := by
  constructor <;> intro h <;> simp_all [initRequest, ReqInv]

/-- Appending one event runs it after the sequence. -/
lemma runEvents_append_one (r : RequestState) (evs : List Ev) (e : Ev) :
    runEvents r (evs ++ [e]) = stepEv (runEvents r evs) e := by
  induction evs generalizing r with
  | nil => rfl
  | cons x xs ih => simp [runEvents, ih]

/-- A settled request is resolved. -/
lemma resolved_of_settled (r : RequestState) (s : Settled) (hinv : ReqInv r)
    (h : r.settled = some s) : r.resolved = true := by
  by_cases hr : r.resolved = true
  · exact hr
  · have hr' : r.resolved = false := by revert hr; cases r.resolved <;> simp
    rw [hinv.1 hr'] at h
    cases h

/-! ## Claim theorems -/

/-- C1 (counterexample): on the claimed scenario — response lengths
`[0,0,12,12,12]`, stop control present on the first two ticks only — the
detector has NOT declared completion by tick 5: `isComplete` is still false,
the stability counter has only reached 2 (the first length-12 tick resets
the counter and records the new baseline; only the two following equal ticks
increment it), and no text has been emitted. -/
theorem c1_counterexample :
    (runDetector waitForResponseInit c1Seq).1.isComplete = false ∧
    (runDetector waitForResponseInit c1Seq).1.stableCount = 2 ∧
    (runDetector waitForResponseInit c1Seq).2 = [] := by
  refine ⟨by decide, by decide, by decide⟩

/-- C1 (amended): the stability counter counts equal-to-previous-tick
comparisons, so reaching the required 3 takes four consecutive equal
non-zero lengths.  With the scenario extended by one further stable tick —
lengths `[0,0,12,12,12,12]` — the detector declares completion at tick 6 and
emits the response text, while after the first five ticks it has not yet
completed and has emitted nothing. -/
theorem c1_amended :
    (runDetector waitForResponseInit c1SeqExtended).1.isComplete = true ∧
    (runDetector waitForResponseInit c1SeqExtended).2 = ["abcdefghijkl"] ∧
    (runDetector waitForResponseInit (c1SeqExtended.take 5)).1.isComplete = false ∧
    (runDetector waitForResponseInit (c1SeqExtended.take 5)).2 = [] := by
  refine ⟨by decide, by decide, by decide, by decide⟩

/-- C2 (counterexample): a run of 300 ticks on which the candidate
recognition condition is never met (no response block ever exists) produces
no emission at all — in particular no timeout sentinel — and both
observation handles are still attached after tick 300, so the detector does
not transition to `TimedOut` at tick 300 as claimed. -/
theorem c2_counterexample :
    (runDetector waitForResponseInit (List.replicate maxChecks obsNoResponse)).2 = [] ∧
    (runDetector waitForResponseInit
      (List.replicate maxChecks obsNoResponse)).1.observerActive = true ∧
    (runDetector waitForResponseInit
      (List.replicate maxChecks obsNoResponse)).1.intervalActive = true := by
  have hall : ∀ o ∈ List.replicate maxChecks obsNoResponse, blocked o = true := by
    intro o ho
    rw [List.eq_of_mem_replicate ho]
    rfl
  have h := runDetector_blocked_progress (List.replicate maxChecks obsNoResponse)
    waitForResponseInit hall rfl rfl rfl
    (by simp [waitForResponseInit])
  exact ⟨h.2.2.2.2, h.2.2.1, h.2.2.2.1⟩

/-- C2 (amended): when the candidate-recognition condition is never met, the
detector times out on tick 301, not tick 300: the counter is incremented
before the `checkCount > maxChecks` comparison, so the 301st invocation is
the first on which it exceeds 300.  On that tick it releases both
observation handles and emits the sentinel failure text; through every tick
up to and including 300 it has emitted nothing. -/
theorem c2_amended (obss : List Obs) (hall : ∀ o ∈ obss, blocked o = true)
    (hlen : obss.length = maxChecks + 1) :
    (runDetector waitForResponseInit obss).2 = [timeoutText] ∧
    (runDetector waitForResponseInit obss).1.observerActive = false ∧
    (runDetector waitForResponseInit obss).1.intervalActive = false ∧
    ∀ n ≤ maxChecks, (runDetector waitForResponseInit (obss.take n)).2 = [] := by
  have hsub : ∀ n : Nat, ∀ o ∈ obss.take n, blocked o = true :=
    fun n o ho => hall o (List.take_subset n obss ho)
  have htake : ∀ n ≤ maxChecks,
      (runDetector waitForResponseInit (obss.take n)).1.checkCount = n ∧
      (runDetector waitForResponseInit (obss.take n)).1.isComplete = false ∧
      (runDetector waitForResponseInit (obss.take n)).1.observerActive = true ∧
      (runDetector waitForResponseInit (obss.take n)).1.intervalActive = true ∧
      (runDetector waitForResponseInit (obss.take n)).2 = [] := by
    intro n hn
    have hlen' : (obss.take n).length = n := by
      rw [List.length_take, hlen]; omega
    have h := runDetector_blocked_progress (obss.take n) waitForResponseInit (hsub n)
      rfl rfl rfl (by simpa [waitForResponseInit, hlen'] using hn)
    simpa [waitForResponseInit, hlen'] using h
  obtain ⟨o, hys⟩ : ∃ o, obss.drop maxChecks = [o] := by
    rw [← List.length_eq_one, List.length_drop, hlen]
    omega
  have hxs := htake maxChecks le_rfl
  have hsplit : obss = obss.take maxChecks ++ [o] := by
    conv_lhs => rw [← List.take_append_drop maxChecks obss]
    rw [hys]
  have hto := checkCompletion_timeout (runDetector waitForResponseInit
      (obss.take maxChecks)).1 o hxs.2.1 (le_of_eq hxs.1.symm)
  have hg : ((runDetector waitForResponseInit (obss.take maxChecks)).1.observerActive ||
      (runDetector waitForResponseInit (obss.take maxChecks)).1.intervalActive) = true := by
    rw [hxs.2.2.1]
    simp
  have hrun1 : runDetector (runDetector waitForResponseInit (obss.take maxChecks)).1 [o] =
      ((checkCompletion (runDetector waitForResponseInit (obss.take maxChecks)).1 o).1,
        [timeoutText]) := by
    simp [runDetector, hg, hto]
  refine ⟨?_, ?_, ?_, fun n hn => (htake n hn).2.2.2.2⟩ <;>
    rw [hsplit, runDetector_append, hrun1] <;>
    simp [hxs.2.2.2.2, hto]

/-- C2 (witness): the amended timeout law applied to the concrete run of 301
ticks on which no response block ever exists. -/
theorem c2_witness :
    (∀ o ∈ List.replicate (maxChecks + 1) obsNoResponse, blocked o = true) ∧
    (runDetector waitForResponseInit
      (List.replicate (maxChecks + 1) obsNoResponse)).2 = [timeoutText] := by
  have hall : ∀ o ∈ List.replicate (maxChecks + 1) obsNoResponse, blocked o = true := by
    intro o ho
    rw [List.eq_of_mem_replicate ho]
    rfl
  exact ⟨hall,
    (c2_amended (List.replicate (maxChecks + 1) obsNoResponse) hall (by simp)).1⟩

/-- C8: on any tick sequence on which the latest response block's text
length is 0 throughout (or no response block exists), the detector never
transitions to complete and the only text it can ever emit is the timeout
sentinel — never a captured success text — regardless of the stop-control,
streaming-indicator and send-button observations. -/
theorem c8_detector_no_false_positive (obss : List Obs)
    (hall : ∀ o ∈ obss, currentLength o = 0) :
    (runDetector waitForResponseInit obss).1.isComplete = false ∧
    ∀ t ∈ (runDetector waitForResponseInit obss).2, t = timeoutText := by
  apply runDetector_blocked_safe
  · intro o ho
    have h := hall o ho
    simp [blocked, h]
  · rfl

/-- C8 (witness): the non-false-positive law applied to a one-tick run with
no response block. -/
theorem c8_witness :
    (∀ o ∈ [obsNoResponse], currentLength o = 0) ∧
    (runDetector waitForResponseInit [obsNoResponse]).1.isComplete = false := by
  refine ⟨by decide, (c8_detector_no_false_positive [obsNoResponse] (by decide)).1⟩

/-- C3 (counterexample): with the textarea present, the broker reporting a
successful injection, but the re-read input text empty, `handlePrompt` only
logs a console error: it does not click the send button, does not dispatch
Enter, and sends no message of any kind upstream — in particular no
`InjectionFailed` signal ever reaches the facade. -/
theorem c3_counterexample :
    handlePrompt c3Env =
      [OrchAction.consoleError "ChatGPT Automator: Failed to set prompt text."] ∧
    (∀ a ∈ handlePrompt c3Env,
      a ≠ OrchAction.clickSend ∧ a ≠ OrchAction.dispatchEnter) ∧
    ∀ a ∈ handlePrompt c3Env, ∀ action text : String,
      a ≠ OrchAction.runtimeSendMessage action text := by
  refine ⟨by decide, by decide, ?_⟩
  intro a ha action text
  have he : handlePrompt c3Env =
      [OrchAction.consoleError "ChatGPT Automator: Failed to set prompt text."] := by decide
  rw [he] at ha
  simp only [List.mem_singleton] at ha
  subst ha
  simp

/-- C3 (amended): whenever the post-injection re-verification finds the
input's visible text empty, the orchestrator performs exactly one action — a
logged console error.  It neither activates the submit control nor
synthesizes Enter (so no submission occurs), but it also signals nothing
upstream: the facade receives no `InjectionFailed` (or any other) message,
and the caller's pending request can only end via its own timeout. -/
theorem c3_amended (env : PromptEnv) (hta : env.textareaPresent = true)
    (hempty : (jsTrim env.contentCheck).length = 0) :
    handlePrompt env =
      [OrchAction.consoleError "ChatGPT Automator: Failed to set prompt text."] := by
  simp [handlePrompt, hta, setProseMirrorContent, hempty]

/-- C3 (witness): the amended no-submission law applied to the concrete
environment with a successful broker report and an empty re-read. -/
theorem c3_witness :
    c3Env.textareaPresent = true ∧ (jsTrim c3Env.contentCheck).length = 0 ∧
    handlePrompt c3Env =
      [OrchAction.consoleError "ChatGPT Automator: Failed to set prompt text."] :=
  ⟨rfl, by decide, c3_amended c3Env rfl (by decide)⟩

/-- C4: `_handleResponse` is a global broadcast with no per-request
correlation: whenever a captured-response message is handled, every
registered, still-pending listener is resolved with that same text; in
particular two concurrent `sendPrompt` requests (two fresh listeners) are
both resolved by the first captured response. -/
theorem c4_broadcast (reqs : List RequestState) (text : String)
    (hall : ∀ r ∈ reqs, r.handlerRegistered = true ∧ r.resolved = false) :
    (∀ r' ∈ handleResponse reqs text, r' = resolvedRequest text) ∧
    handleResponse [initRequest, initRequest] text =
      [resolvedRequest text, resolvedRequest text] := by
  constructor
  · intro r' hr'
    simp only [handleResponse, List.mem_map] at hr'
    obtain ⟨r, hr, rfl⟩ := hr'
    obtain ⟨h1, h2⟩ := hall r hr
    simp [stepEv, h1, h2, resolvedRequest]
  · simp [handleResponse, initRequest, stepEv, resolvedRequest]

/-- C4 (witness): the broadcast law applied to two concurrent fresh
requests. -/
theorem c4_witness :
    (∀ r ∈ [initRequest, initRequest], r.handlerRegistered = true ∧ r.resolved = false) ∧
    ∀ r' ∈ handleResponse [initRequest, initRequest] "first response",
      r' = resolvedRequest "first response" := by
  refine ⟨by decide,
    (c4_broadcast [initRequest, initRequest] "first response" (by decide)).1⟩

/-- C5 (counterexample): a tab-lookup failure does NOT settle the promise:
it sets the `resolved` flag, removes the handler and clears the timer, but
`settled` stays `none` — and stays `none` even after a later captured
response and timer expiry, because the `resolved` guard makes them no-ops
and the handler is already removed.  This refutes the claim that a
tab-lookup failure firing first settles the promise (exactly-once
settlement): the promise is settled zero times. -/
theorem c5_counterexample :
    runEvents initRequest [Ev.tabLookupFail] =
      { resolved := true, handlerRegistered := false, timerActive := false,
        settled := none } ∧
    (runEvents initRequest
      [Ev.tabLookupFail, Ev.response "late", Ev.timeoutFire]).settled = none := by
  refine ⟨by decide, by decide⟩

/-- C5 (amended): the promise is settled AT MOST once.  Once the `resolved`
flag is set, every later trigger is a no-op; once settled, the settlement
value never changes, the response handler has been removed from the listener
set and the timeout timer has been cleared.  The timeout timer, a captured
response and a send failure each settle the promise when they fire first —
but a tab-lookup failure only marks the request resolved and cleans up
without settling, leaving the promise pending forever. -/
theorem c5_amended (evs : List Ev) (e : Ev) (s : Settled) :
    ((runEvents initRequest evs).resolved = true →
      stepEv (runEvents initRequest evs) e = runEvents initRequest evs) ∧
    ((runEvents initRequest evs).settled = some s →
      (runEvents initRequest evs).handlerRegistered = false ∧
      (runEvents initRequest evs).timerActive = false ∧
      (runEvents initRequest (evs ++ [e])).settled = some s) ∧
    (runEvents initRequest (Ev.tabLookupFail :: evs)).settled = none := by
  have hinv := ReqInv_run initRequest evs ReqInv_init
  refine ⟨fun h => stepEv_resolved _ e h, fun h => ?_, ?_⟩
  · have hres := resolved_of_settled _ s hinv h
    refine ⟨(hinv.2 hres).1, (hinv.2 hres).2, ?_⟩
    rw [runEvents_append_one, stepEv_resolved _ e hres, h]
  · have h1 : stepEv initRequest Ev.tabLookupFail =
        { resolved := true, handlerRegistered := false, timerActive := false,
          settled := none } := rfl
    show (runEvents (stepEv initRequest Ev.tabLookupFail) evs).settled = none
    rw [h1, runEvents_resolved _ evs rfl]

/-- C5 (witness): the at-most-once law applied after a captured response has
settled the request — the later timer expiry is a no-op. -/
theorem c5_witness :
    (runEvents initRequest [Ev.response "ok"]).resolved = true ∧
    stepEv (runEvents initRequest [Ev.response "ok"]) Ev.timeoutFire =
      runEvents initRequest [Ev.response "ok"] :=
  ⟨by decide,
    (c5_amended [Ev.response "ok"] Ev.timeoutFire (Settled.resolvedWith "ok")).1 (by decide)⟩

/-- C6: the claimed broker behavior is unreachable.  `result.success` and
`check.hasContent` are property reads on the `executeScript` wrapper objects
(the code omits `.result`), so both are always undefined and falsy.
Consequently, for every pair of wrapper arrays: the marker-cleanup script
never runs (the marker is never deleted), the synthesized
`dom_manipulation` success is never sent, and the broker always responds
with the raw wrapper object when the marker-read array is non-empty —
regardless of the marker value inside it — and with the generic
"No result found" failure when it is empty. -/
theorem c6_broker_unreachable (results : List MarkerWrapper)
    (checkResults : List ProbeWrapper) (w : MarkerWrapper) :
    (brokerHandle results checkResults).2 = false ∧
    (brokerHandle results checkResults).1 ≠ BrokerResponse.plain domManipSuccess ∧
    brokerHandle [w] checkResults = (BrokerResponse.wrapper w, false) ∧
    brokerHandle [] checkResults = (BrokerResponse.plain noResultFailure, false) := by
  have hmain : ∀ (rs : List MarkerWrapper) (cs : List ProbeWrapper),
      brokerHandle rs cs =
        ((match rs.head? with
          | some r => BrokerResponse.wrapper r
          | none => BrokerResponse.plain noResultFailure), false) := by
    intro rs cs
    cases rs <;> cases cs <;>
      simp [brokerHandle, MarkerWrapper.success, ProbeWrapper.hasContent, jsTruthy]
  refine ⟨?_, ?_, ?_, ?_⟩
  · rw [hmain]
  · rw [hmain]
    cases results with
    | nil => simp [noResultFailure, domManipSuccess]
    | cons r rs => simp
  · rw [hmain]
    rfl
  · rw [hmain]
    rfl

/-- C6 (witness): the failing input evaluated — a marker read holding a
Tier 1 success marker and a probe reporting content present, yet the broker
responds with the raw wrapper and does not run the marker cleanup. -/
theorem c6_witness :
    brokerHandle [successMarkerWrapper] [contentProbeWrapper] =
      (BrokerResponse.wrapper successMarkerWrapper, false) :=
  (c6_broker_unreachable [successMarkerWrapper] [contentProbeWrapper]
    successMarkerWrapper).2.2.1

/-- C7: `initialize()` is idempotent — calling it `n ≥ 1` times on a fresh
instance leaves the instance in exactly the state one call produces, and
exactly one bus listener has been registered. -/
theorem c7_initialize_idempotent (n : Nat) (h : 1 ≤ n) :
    initializeN n freshAPI = initializeAPI freshAPI ∧
    (initializeN n freshAPI).busListenerCount = 1 := by
  have hone : initializeAPI freshAPI =
      { isInitialized := true, hasMessageListener := true, busListenerCount := 1 } := rfl
  have hfix : ∀ m, initializeN m
      { isInitialized := true, hasMessageListener := true, busListenerCount := 1 } =
      { isInitialized := true, hasMessageListener := true, busListenerCount := 1 } := by
    intro m
    induction m with
    | zero => rfl
    | succ k ih =>
      show initializeN k (initializeAPI
        { isInitialized := true, hasMessageListener := true, busListenerCount := 1 }) =
        { isInitialized := true, hasMessageListener := true, busListenerCount := 1 }
      rw [show initializeAPI
        { isInitialized := true, hasMessageListener := true, busListenerCount := 1 } =
        { isInitialized := true, hasMessageListener := true, busListenerCount := 1 } from rfl]
      exact ih
  obtain ⟨m, rfl⟩ : ∃ m, n = m + 1 := ⟨n - 1, by omega⟩
  constructor
  · show initializeN m (initializeAPI freshAPI) = initializeAPI freshAPI
    rw [hone, hfix]
  · show (initializeN m (initializeAPI freshAPI)).busListenerCount = 1
    rw [hone, hfix]

/-- C7 (witness): three `initialize()` calls leave the same state as one. -/
theorem c7_witness :
    1 ≤ 3 ∧ initializeN 3 freshAPI = initializeAPI freshAPI :=
  ⟨by decide, (c7_initialize_idempotent 3 (by decide)).1⟩

/-- C9: the two entry guards of `sendPrompt` behave as claimed
(`NotInitialized` before `initialize`, `InvalidInput` on a non-string or
whitespace-only prompt) — but when the tab locator resolves no matching tab,
`sendPrompt` does NOT fail with a `TargetNotFound` error: that path sets the
`resolved` flag, clears the timer and removes the handler before throwing,
the catch block's `resolved` guard then swallows the rejection, and the
returned promise stays unsettled under every later event. -/
theorem c9_sendPrompt_guards (p : PromptValue) (tabs : List Tab) (s : String) :
    sendPrompt false p tabs = SendStart.immediateError ErrorKind.notInitialized ∧
    sendPrompt true PromptValue.nonString tabs =
      SendStart.immediateError ErrorKind.invalidInput ∧
    ((jsTrim s).length = 0 →
      sendPrompt true (PromptValue.str s) tabs =
        SendStart.immediateError ErrorKind.invalidInput) ∧
    (getChatGPTTab tabs = none → (jsTrim s).length ≠ 0 →
      sendPrompt true (PromptValue.str s) tabs = SendStart.started hungRequest ∧
      ∀ evs : List Ev, (runEvents hungRequest evs).settled = none) := by
  refine ⟨rfl, rfl, fun h => ?_, fun ht hs => ⟨?_, fun evs => ?_⟩⟩
  · simp [sendPrompt, sendPromptGuards, h]
  · simp [sendPrompt, sendPromptGuards, hs, ht, stepEv, initRequest, hungRequest]
  · rw [runEvents_resolved _ evs rfl]
    rfl

/-- C9 (witness): the tab-lookup-failure behavior at the concrete failing
input — an initialized facade, the valid prompt "hello", and no open tabs. -/
theorem c9_witness :
    getChatGPTTab ([] : List Tab) = none ∧ (jsTrim "hello").length ≠ 0 ∧
    sendPrompt true (PromptValue.str "hello") [] = SendStart.started hungRequest :=
  ⟨rfl, by decide,
    ((c9_sendPrompt_guards PromptValue.nonString [] "hello").2.2.2 rfl (by decide)).1⟩

/-- C10: the orchestrator's injection-success decision ignores the broker's
reported result entirely: `setProseMirrorContent` returns the same value for
any two broker responses, it returns true iff the re-read visible text is
non-empty, and (textarea present) `handlePrompt` submits — clicks send or
dispatches Enter — iff that re-read text is non-empty. -/
theorem c10_injection_decision (r r' : Option InjResult) (c : String) (env : PromptEnv) :
    setProseMirrorContent r c = setProseMirrorContent r' c ∧
    (setProseMirrorContent r c = true ↔ 0 < (jsTrim c).length) ∧
    (env.textareaPresent = true →
      ((OrchAction.clickSend ∈ handlePrompt env ∨
        OrchAction.dispatchEnter ∈ handlePrompt env) ↔
        0 < (jsTrim env.contentCheck).length)) := by
  refine ⟨rfl, by simp [setProseMirrorContent], fun hta => ?_⟩
  by_cases hc : 0 < (jsTrim env.contentCheck).length
  · by_cases hsb : env.sendButtonPresent = true <;>
      simp [handlePrompt, hta, setProseMirrorContent, hc, hsb]
  · simp [handlePrompt, hta, setProseMirrorContent, hc]

/-- C10 (witness): the decision law at a broker response reporting failure
with non-empty re-read content. -/
theorem c10_witness :
    c3Env.textareaPresent = true ∧
    ((OrchAction.clickSend ∈ handlePrompt c3Env ∨
      OrchAction.dispatchEnter ∈ handlePrompt c3Env) ↔
      0 < (jsTrim c3Env.contentCheck).length) :=
  ⟨rfl, (c10_injection_decision none (some noResultFailure) "x" c3Env).2.2 rfl⟩

end ChatGPTAutomator
